import Mathlib

/-!
Shallow embedding of the TidesDB Java JNI binding
(`src/main/c/com_tidesdb_TidesDB.c`).

The file models each native binding function as a pure Lean function.  The
engine (`libtidesdb`) is an external collaborator, so every engine call is
represented by oracle inputs: the integer result code the engine returns and
any out-parameters it fills in.  JNI effects that the claims talk about are
made explicit in the outcome records:

* a pending Java exception is an `Option TdbException` (built by
  `throwTidesDBException`, modelling lines 24-43 on the normal JNI path where
  the `com.tidesdb.TidesDBException` class and its `(String, int)` constructor
  exist — they are part of this project's Java sources);
* the release mode passed to `ReleaseByteArrayElements` is a `ReleaseMode`;
* buffers the binding frees are recorded as booleans;
* values the binding returns to Java are ordinary Lean values (`jbyteArray`
  as `List Int`, object handles as `Nat` pointer values, `null` as `none`).

`GetStringUTFChars` can fail returning NULL; where the C code checks for
that, the check is modelled by an explicit `Bool` oracle argument (`pathOk`,
`cfNameOk`, ...).  Where the C code does not check (the savepoint functions),
the extraction is assumed to succeed.
-/

/-- Engine result codes from the engine header `tidesdb/db.h` (the engine is
an external library; its header is not part of this repository).  The binding
code depends only on `TDB_SUCCESS` being the success code and on the eleven
error codes being pairwise distinct — they are distinct `case` labels of one
C `switch`, which C requires to be distinct.  The concrete values used here
are representative. -/
def TDB_SUCCESS : Int := 0

/-- Engine error code: memory allocation failure. -/
def TDB_ERR_MEMORY : Int := -1

/-- Engine error code: invalid arguments. -/
def TDB_ERR_INVALID_ARGS : Int := -2

/-- Engine error code: key or object not found. -/
def TDB_ERR_NOT_FOUND : Int := -3

/-- Engine error code: I/O failure. -/
def TDB_ERR_IO : Int := -4

/-- Engine error code: data corruption. -/
def TDB_ERR_CORRUPTION : Int := -5

/-- Engine error code: already exists. -/
def TDB_ERR_EXISTS : Int := -6

/-- Engine error code: transaction conflict. -/
def TDB_ERR_CONFLICT : Int := -7

/-- Engine error code: key or value too large. -/
def TDB_ERR_TOO_LARGE : Int := -8

/-- Engine error code: memory limit exceeded. -/
def TDB_ERR_MEMORY_LIMIT : Int := -9

/-- Engine error code: invalid database handle. -/
def TDB_ERR_INVALID_DB : Int := -10

/-- Engine error code: database is locked. -/
def TDB_ERR_LOCKED : Int := -11

/-- A pending `com.tidesdb.TidesDBException`: the error code and the message
passed to its `(String, int)` constructor. -/
structure TdbException where
  code : Int
  message : String
  deriving DecidableEq

/-- Embeds `throwTidesDBException` (lines 24-43) on the normal JNI path: the
exception class and its two-argument constructor are found, so the thrown
exception carries exactly the given code and message. -/
def throwTidesDBException (errorCode : Int) (message : String) : TdbException :=
  ⟨errorCode, message⟩

/-- Embeds `getErrorMessage` (lines 45-74): the C `switch` over the engine
error code, with default case "unknown error". -/
def getErrorMessage (code : Int) : String :=
  if code = TDB_ERR_MEMORY then "memory allocation failed"
  else if code = TDB_ERR_INVALID_ARGS then "invalid arguments"
  else if code = TDB_ERR_NOT_FOUND then "not found"
  else if code = TDB_ERR_IO then "I/O error"
  else if code = TDB_ERR_CORRUPTION then "data corruption"
  else if code = TDB_ERR_EXISTS then "already exists"
  else if code = TDB_ERR_CONFLICT then "transaction conflict"
  else if code = TDB_ERR_TOO_LARGE then "key or value too large"
  else if code = TDB_ERR_MEMORY_LIMIT then "memory limit exceeded"
  else if code = TDB_ERR_INVALID_DB then "invalid database handle"
  else if code = TDB_ERR_LOCKED then "database is locked"
  else "unknown error"

/-- The result check repeated after every engine call in the binding:
`if (result != TDB_SUCCESS) throwTidesDBException(env, result,
getErrorMessage(result));`. -/
def checkResult (result : Int) : Option TdbException :=
  if result ≠ TDB_SUCCESS then some (throwTidesDBException result (getErrorMessage result))
  else none

/-- Mode argument of JNI `ReleaseByteArrayElements`: `0` (copy back and
free), `JNI_COMMIT` (copy back, keep buffer), `JNI_ABORT` (free without
copying back). -/
inductive ReleaseMode where
  | copyBackAndFree
  | jniCommit
  | jniAbort
  deriving DecidableEq

/-- JNI semantics of `ReleaseByteArrayElements` on the Java array contents:
with `JNI_ABORT` the native buffer is discarded and the Java array keeps its
original contents; otherwise the native buffer is copied back. -/
def releaseByteArrayElements (original buffer : List Int) : ReleaseMode → List Int
  | .jniAbort => original
  | _ => buffer

/-- A C `double` value, opaque to the binding (it copies doubles verbatim and
never computes with them); represented by its 64-bit pattern. -/
structure CDouble where
  bits : Nat
  deriving DecidableEq

/-- The C cast `(jlong)x` applied to an unsigned 64-bit quantity (`size_t` /
`uint64_t`): values below `2^63` are preserved, larger ones wrap negative. -/
def jlongOfSizeT (n : Nat) : Int :=
  if n % 2 ^ 64 < 2 ^ 63 then (n % 2 ^ 64 : Nat) else (n % 2 ^ 64 : Nat) - 2 ^ 64

/-- The C cast `(size_t)x` applied to a `jlong`: reduction modulo `2^64`,
so a negative `jlong` becomes a huge unsigned value. -/
def sizeTOfJlong (x : Int) : Nat :=
  (x % (2 : Int) ^ 64).toNat

/-- The engine configuration `tidesdb_config_t` as filled in by `nativeOpen`
(lines 89-94).  `db_path` is `char *` (modelled as the string contents),
thread counts and log level are C `int`s, the two sizes are `size_t`. -/
structure Tidesdb_config where
  db_path : String
  num_flush_threads : Int
  num_compaction_threads : Int
  log_level : Int
  block_cache_size : Nat
  max_open_sstables : Nat
  deriving DecidableEq

/-- The engine's cache statistics struct `tidesdb_cache_stats_t` as read by
`nativeGetCacheStats`: an `int` flag, unsigned 64-bit counters, and a
`double` hit rate. -/
structure Tidesdb_cache_stats where
  enabled : Int
  total_entries : Nat
  total_bytes : Nat
  hits : Nat
  misses : Nat
  hit_rate : CDouble
  num_partitions : Nat
  deriving DecidableEq

/-- The Java `com.tidesdb.CacheStats` object built through its constructor of
signature `(ZJJJJDJ)V` — exactly seven fields. -/
structure CacheStats where
  enabled : Bool
  totalEntries : Int
  totalBytes : Int
  hits : Int
  misses : Int
  hitRate : CDouble
  numPartitions : Int
  deriving DecidableEq

/-- The engine's per-column-family statistics struct `tidesdb_stats_t` as
read by `nativeGetStats`: an `int` level count, a `size_t` memtable size, and
two possibly-NULL arrays of `num_levels` elements (`size_t *level_sizes`,
`int *level_num_sstables`). -/
structure Tidesdb_stats where
  num_levels : Int
  memtable_size : Nat
  level_sizes : Option (List Nat)
  level_num_sstables : Option (List Int)
  deriving DecidableEq

/-- The Java `com.tidesdb.Stats` object built through its constructor of
signature `(IJ[J[ILcom/tidesdb/ColumnFamilyConfig;)V`; the binding always
passes NULL for the config argument (line 440). -/
structure Stats where
  numLevels : Int
  memtableSize : Int
  levelSizes : List Int
  levelNumSSTables : List Int
  config : Option Unit
  deriving DecidableEq

/-- Arguments the binding passes to the engine's
`tidesdb_register_comparator(db, name, compare, ctx, destructor)`: the
comparator function pointer and the destructor pointer are `Option`s whose
`none` is C NULL. -/
structure RegisterComparatorArgs where
  name : String
  compare : Option (List Int → List Int → Int)
  ctx : Option String
  destroy : Option (Unit → Unit)

/-- Outcome of a native method that returns an object handle (`jlong`) and
may throw: the pending exception and the returned handle value. -/
structure HandleOutcome where
  exception : Option TdbException
  ret : Nat
  deriving DecidableEq

/-- Outcome of a native method that returns a `jbyteArray` (possibly Java
`null`) and may throw. -/
structure BytesOutcome where
  exception : Option TdbException
  ret : Option (List Int)
  deriving DecidableEq

/-- Outcome of the null-guarded destructors (`nativeClose`, the two
`nativeFree`s): whether the engine teardown function was invoked.  These
functions contain no throw path, so the pending exception is always `none`
and is recorded for explicitness. -/
structure CloseOutcome where
  engineCalled : Bool
  exception : Option TdbException
  deriving DecidableEq

namespace TidesDB

/-- Outcome of `nativeOpen`: the pending exception, the returned handle
(`jlong` pointer value, `0` on failure), and the `tidesdb_config_t` passed to
`tidesdb_open` (`none` when the path extraction failed and the engine was
never called). -/
structure OpenOutcome where
  exception : Option TdbException
  ret : Nat
  config : Option Tidesdb_config
  deriving DecidableEq

/-- Embeds `Java_com_tidesdb_TidesDB_nativeOpen` (lines 76-108).  `pathOk` is
the oracle for `GetStringUTFChars` on the path; `engineResult` and `engineDb`
are the oracle for the `tidesdb_open` call. -/
def nativeOpen (path : String) (pathOk : Bool) (numFlushThreads numCompactionThreads : Int)
    (logLevel blockCacheSize maxOpenSSTables : Int) (engineResult : Int)
    (engineDb : Nat) : OpenOutcome :=
  if pathOk = false then
    ⟨some (throwTidesDBException TDB_ERR_MEMORY "Failed to get database path"), 0, none⟩
  else
    let config : Tidesdb_config :=
      ⟨path, numFlushThreads, numCompactionThreads, logLevel,
        sizeTOfJlong blockCacheSize, sizeTOfJlong maxOpenSSTables⟩
    if engineResult ≠ TDB_SUCCESS then
      ⟨some (throwTidesDBException engineResult (getErrorMessage engineResult)), 0, some config⟩
    else
      ⟨none, engineDb, some config⟩

/-- Embeds `Java_com_tidesdb_TidesDB_nativeClose` (lines 110-117): the engine
`tidesdb_close` runs only when the handle is non-null; nothing can throw. -/
def nativeClose (handle : Int) : CloseOutcome :=
  ⟨handle ≠ 0, none⟩

/-- Embeds `Java_com_tidesdb_TidesDB_nativeCreateColumnFamily`
(lines 119-181) at the granularity the claims need: the column-family name
extraction oracle and the engine result check.  The marshalled
`tidesdb_column_family_config_t` (lines 142-167) is forwarded to the engine
and not otherwise used by the binding, so it is not recorded here. -/
def nativeCreateColumnFamily (cfNameOk : Bool) (engineResult : Int) : Option TdbException :=
  if cfNameOk = false then
    some (throwTidesDBException TDB_ERR_MEMORY "Failed to get column family name")
  else checkResult engineResult

/-- Embeds `Java_com_tidesdb_TidesDB_nativeDropColumnFamily` (lines 183-202). -/
def nativeDropColumnFamily (cfNameOk : Bool) (engineResult : Int) : Option TdbException :=
  if cfNameOk = false then
    some (throwTidesDBException TDB_ERR_MEMORY "Failed to get column family name")
  else checkResult engineResult

/-- Embeds `Java_com_tidesdb_TidesDB_nativeGetColumnFamily` (lines 204-226):
the engine call `tidesdb_get_column_family` returns a pointer (no result
code); a NULL pointer (`engineCf = 0`) makes the binding throw
`TDB_ERR_NOT_FOUND` and return 0. -/
def nativeGetColumnFamily (cfNameOk : Bool) (engineCf : Nat) : HandleOutcome :=
  if cfNameOk = false then
    ⟨some (throwTidesDBException TDB_ERR_MEMORY "Failed to get column family name"), 0⟩
  else if engineCf = 0 then
    ⟨some (throwTidesDBException TDB_ERR_NOT_FOUND "Column family not found"), 0⟩
  else ⟨none, engineCf⟩

/-- Outcome of `nativeListColumnFamilies`: pending exception and the returned
`String[]` (`none` is Java null). -/
structure ListOutcome where
  exception : Option TdbException
  ret : Option (List String)
  deriving DecidableEq

/-- Embeds `Java_com_tidesdb_TidesDB_nativeListColumnFamilies`
(lines 228-255): on success the engine's name array is copied into a Java
`String[]` (each `names[i]` then freed, then the array). -/
def nativeListColumnFamilies (engineResult : Int) (names : List String) : ListOutcome :=
  if engineResult ≠ TDB_SUCCESS then
    ⟨some (throwTidesDBException engineResult (getErrorMessage engineResult)), none⟩
  else ⟨none, some names⟩

/-- Embeds `Java_com_tidesdb_TidesDB_nativeBeginTransaction` (lines 257-271). -/
def nativeBeginTransaction (engineResult : Int) (engineTxn : Nat) : HandleOutcome :=
  if engineResult ≠ TDB_SUCCESS then
    ⟨some (throwTidesDBException engineResult (getErrorMessage engineResult)), 0⟩
  else ⟨none, engineTxn⟩

/-- Embeds `Java_com_tidesdb_TidesDB_nativeBeginTransactionWithIsolation`
(lines 273-288); the isolation level argument is cast and forwarded to the
engine, not otherwise used by the binding. -/
def nativeBeginTransactionWithIsolation (engineResult : Int) (engineTxn : Nat) : HandleOutcome :=
  if engineResult ≠ TDB_SUCCESS then
    ⟨some (throwTidesDBException engineResult (getErrorMessage engineResult)), 0⟩
  else ⟨none, engineTxn⟩

/-- Outcome of `nativeGetCacheStats`: pending exception and the returned
`CacheStats` object (`none` is Java null). -/
structure CacheStatsOutcome where
  exception : Option TdbException
  ret : Option CacheStats
  deriving DecidableEq

/-- Embeds `Java_com_tidesdb_TidesDB_nativeGetCacheStats` (lines 290-310):
on success the seven fields of the engine struct are passed to the
`CacheStats(boolean, long, long, long, long, double, long)` constructor,
the counters through the C `(jlong)` cast, `enabled` as `!= 0`, and
`hit_rate` verbatim. -/
def nativeGetCacheStats (engineResult : Int) (stats : Tidesdb_cache_stats) : CacheStatsOutcome :=
  if engineResult ≠ TDB_SUCCESS then
    ⟨some (throwTidesDBException engineResult (getErrorMessage engineResult)), none⟩
  else
    ⟨none, some ⟨stats.enabled != 0, jlongOfSizeT stats.total_entries,
      jlongOfSizeT stats.total_bytes, jlongOfSizeT stats.hits, jlongOfSizeT stats.misses,
      stats.hit_rate, jlongOfSizeT stats.num_partitions⟩⟩

/-- Outcome of `nativeRegisterComparator`: the pending exception and the
arguments passed to `tidesdb_register_comparator` (`none` when the engine was
never called because the name extraction failed). -/
structure RegisterOutcome where
  exception : Option TdbException
  call : Option RegisterComparatorArgs

/-- Embeds `Java_com_tidesdb_TidesDB_nativeRegisterComparator`
(lines 312-342): the binding calls
`tidesdb_register_comparator(db, compName, NULL, ctx, NULL)` — the comparator
function pointer and the destructor are the literal NULL (line 330); only the
name and the context string are forwarded.  The context string is released
back to the JVM right after the call (line 335). -/
def nativeRegisterComparator (name : String) (compNameOk : Bool) (context : Option String)
    (engineResult : Int) : RegisterOutcome :=
  if compNameOk = false then
    ⟨some (throwTidesDBException TDB_ERR_MEMORY "Failed to get comparator name"), none⟩
  else
    ⟨checkResult engineResult, some ⟨name, none, context, none⟩⟩

/-- Embeds `Java_com_tidesdb_TidesDB_nativeBackup` (lines 344-363). -/
def nativeBackup (backupDirOk : Bool) (engineResult : Int) : Option TdbException :=
  if backupDirOk = false then
    some (throwTidesDBException TDB_ERR_MEMORY "Failed to get backup directory")
  else checkResult engineResult

/-- Embeds `Java_com_tidesdb_TidesDB_nativeRenameColumnFamily`
(lines 365-395). -/
def nativeRenameColumnFamily (oldNameOk newNameOk : Bool) (engineResult : Int) :
    Option TdbException :=
  if oldNameOk = false then
    some (throwTidesDBException TDB_ERR_MEMORY "Failed to get old column family name")
  else if newNameOk = false then
    some (throwTidesDBException TDB_ERR_MEMORY "Failed to get new column family name")
  else checkResult engineResult

end TidesDB

namespace ColumnFamily

/-- Outcome of `nativeGetStats`: pending exception and the returned `Stats`
object (`none` is Java null). -/
structure StatsOutcome where
  exception : Option TdbException
  ret : Option Stats
  deriving DecidableEq

/-- Embeds `Java_com_tidesdb_ColumnFamily_nativeGetStats` (lines 397-445).
On success a `jlong[]`/`jint[]` of `num_levels` elements each is created
(zero-filled by JNI); when the corresponding engine array pointer is non-NULL
its first `num_levels` elements are copied in, sizes through the `(jlong)`
cast.  `List.getD` stands in for the C pointer indexing `level_sizes[i]`.
The engine struct is freed afterwards (`tidesdb_free_stats`, line 442). -/
def nativeGetStats (engineResult : Int) (stats : Tidesdb_stats) : StatsOutcome :=
  if engineResult ≠ TDB_SUCCESS then
    ⟨some (throwTidesDBException engineResult (getErrorMessage engineResult)), none⟩
  else
    let n : Nat := stats.num_levels.toNat
    let levelSizes : List Int :=
      match stats.level_sizes with
      | none => List.replicate n 0
      | some ls => (List.range n).map fun i => jlongOfSizeT (ls.getD i 0)
    let levelNumSSTables : List Int :=
      match stats.level_num_sstables with
      | none => List.replicate n 0
      | some ns => (List.range n).map fun i => ns.getD i 0
    ⟨none, some ⟨stats.num_levels, jlongOfSizeT stats.memtable_size,
      levelSizes, levelNumSSTables, none⟩⟩

/-- Embeds `Java_com_tidesdb_ColumnFamily_nativeCompact` (lines 447-457). -/
def nativeCompact (engineResult : Int) : Option TdbException :=
  checkResult engineResult

/-- Embeds `Java_com_tidesdb_ColumnFamily_nativeFlushMemtable`
(lines 459-469). -/
def nativeFlushMemtable (engineResult : Int) : Option TdbException :=
  checkResult engineResult

/-- Embeds `Java_com_tidesdb_ColumnFamily_nativeIsFlushing` (lines 471-476). -/
def nativeIsFlushing (engineValue : Int) : Bool :=
  engineValue != 0

/-- Embeds `Java_com_tidesdb_ColumnFamily_nativeIsCompacting`
(lines 478-483). -/
def nativeIsCompacting (engineValue : Int) : Bool :=
  engineValue != 0

/-- Embeds `Java_com_tidesdb_ColumnFamily_nativeUpdateRuntimeConfig`
(lines 485-506) at the granularity the claims need: the engine result check.
The partial `tidesdb_column_family_config_t` (lines 492-498) is forwarded to
the engine and not otherwise used by the binding. -/
def nativeUpdateRuntimeConfig (engineResult : Int) : Option TdbException :=
  checkResult engineResult

end ColumnFamily

namespace Transaction

/-- Outcome of `nativePut`: the arguments handed to `tidesdb_txn_put`
(key bytes, value bytes, ttl), the release modes of the two borrowed arrays,
and the pending exception. -/
structure PutOutcome where
  engineArgs : List Int × List Int × Int
  keyRelease : ReleaseMode
  valueRelease : ReleaseMode
  exception : Option TdbException
  deriving DecidableEq

/-- Embeds `Java_com_tidesdb_Transaction_nativePut` (lines 508-531): the key
and value arrays are borrowed, passed to `tidesdb_txn_put` with their lengths
and the ttl, then both are released with `JNI_ABORT` (lines 524-525) before
the result check. -/
def nativePut (key value : List Int) (ttl : Int) (engineResult : Int) : PutOutcome :=
  ⟨(key, value, ttl), .jniAbort, .jniAbort, checkResult engineResult⟩

/-- Outcome of `nativeGet`: the key bytes handed to `tidesdb_txn_get`, the
pending exception, the returned `byte[]` (`none` is Java null), the key
array's release mode, and whether the engine's value buffer was freed. -/
structure GetOutcome where
  engineKey : List Int
  exception : Option TdbException
  ret : Option (List Int)
  keyRelease : ReleaseMode
  freedValue : Bool
  deriving DecidableEq

/-- Embeds `Java_com_tidesdb_Transaction_nativeGet` (lines 533-561): the key
array is released with `JNI_ABORT` (line 548) on every path; on engine
failure the translated exception is thrown and NULL returned; on success a
new `byte[]` of exactly `valueLen` bytes is filled from the engine buffer
(`SetByteArrayRegion`, line 557), the engine buffer is freed (line 558), and
the array is returned.  `engineValue` is the oracle for the bytes the engine
hands back on success. -/
def nativeGet (key : List Int) (engineResult : Int) (engineValue : List Int) : GetOutcome :=
  if engineResult ≠ TDB_SUCCESS then
    ⟨key, some (throwTidesDBException engineResult (getErrorMessage engineResult)),
      none, .jniAbort, false⟩
  else
    ⟨key, none, some engineValue, .jniAbort, true⟩

/-- Outcome of `nativeDelete`: the key bytes handed to `tidesdb_txn_delete`,
the key array's release mode, and the pending exception. -/
structure DeleteOutcome where
  engineKey : List Int
  keyRelease : ReleaseMode
  exception : Option TdbException
  deriving DecidableEq

/-- Embeds `Java_com_tidesdb_Transaction_nativeDelete` (lines 563-581): the
key array is released with `JNI_ABORT` (line 575) before the result check. -/
def nativeDelete (key : List Int) (engineResult : Int) : DeleteOutcome :=
  ⟨key, .jniAbort, checkResult engineResult⟩

/-- Embeds `Java_com_tidesdb_Transaction_nativeCommit` (lines 583-593). -/
def nativeCommit (engineResult : Int) : Option TdbException :=
  checkResult engineResult

/-- Embeds `Java_com_tidesdb_Transaction_nativeRollback` (lines 595-605). -/
def nativeRollback (engineResult : Int) : Option TdbException :=
  checkResult engineResult

/-- Embeds `Java_com_tidesdb_Transaction_nativeSavepoint` (lines 607-621);
the savepoint name extraction is not NULL-checked in the C code and is
assumed to succeed. -/
def nativeSavepoint (engineResult : Int) : Option TdbException :=
  checkResult engineResult

/-- Embeds `Java_com_tidesdb_Transaction_nativeRollbackToSavepoint`
(lines 623-639). -/
def nativeRollbackToSavepoint (engineResult : Int) : Option TdbException :=
  checkResult engineResult

/-- Embeds `Java_com_tidesdb_Transaction_nativeReleaseSavepoint`
(lines 641-656). -/
def nativeReleaseSavepoint (engineResult : Int) : Option TdbException :=
  checkResult engineResult

/-- Embeds `Java_com_tidesdb_Transaction_nativeNewIterator` (lines 658-673). -/
def nativeNewIterator (engineResult : Int) (engineIter : Nat) : HandleOutcome :=
  if engineResult ≠ TDB_SUCCESS then
    ⟨some (throwTidesDBException engineResult (getErrorMessage engineResult)), 0⟩
  else ⟨none, engineIter⟩

/-- Embeds `Java_com_tidesdb_Transaction_nativeFree` (lines 675-683): the
engine `tidesdb_txn_free` runs only when the handle is non-null; nothing can
throw. -/
def nativeFree (handle : Int) : CloseOutcome :=
  ⟨handle ≠ 0, none⟩

end Transaction

namespace TidesDBIterator

/-- Embeds `Java_com_tidesdb_TidesDBIterator_nativeSeekToFirst`
(lines 685-695). -/
def nativeSeekToFirst (engineResult : Int) : Option TdbException :=
  checkResult engineResult

/-- Embeds `Java_com_tidesdb_TidesDBIterator_nativeSeekToLast`
(lines 697-707). -/
def nativeSeekToLast (engineResult : Int) : Option TdbException :=
  checkResult engineResult

/-- Outcome of `nativeSeek`/`nativeSeekForPrev`: the key bytes handed to the
engine, the key array's release mode, and the pending exception. -/
structure SeekOutcome where
  engineKey : List Int
  keyRelease : ReleaseMode
  exception : Option TdbException
  deriving DecidableEq

/-- Embeds `Java_com_tidesdb_TidesDBIterator_nativeSeek` (lines 709-724):
the key array is released with `JNI_ABORT` (line 718) before the result
check. -/
def nativeSeek (key : List Int) (engineResult : Int) : SeekOutcome :=
  ⟨key, .jniAbort, checkResult engineResult⟩

/-- Embeds `Java_com_tidesdb_TidesDBIterator_nativeSeekForPrev`
(lines 726-742): the key array is released with `JNI_ABORT` (line 736)
before the result check. -/
def nativeSeekForPrev (key : List Int) (engineResult : Int) : SeekOutcome :=
  ⟨key, .jniAbort, checkResult engineResult⟩

/-- Embeds `Java_com_tidesdb_TidesDBIterator_nativeValid` (lines 744-749). -/
def nativeValid (engineValue : Int) : Bool :=
  engineValue != 0

/-- Embeds `Java_com_tidesdb_TidesDBIterator_nativeNext` (lines 751-762):
`TDB_ERR_NOT_FOUND` is expected at the end of iteration, so only a result
that is neither `TDB_SUCCESS` nor `TDB_ERR_NOT_FOUND` throws. -/
def nativeNext (engineResult : Int) : Option TdbException :=
  if engineResult ≠ TDB_SUCCESS ∧ engineResult ≠ TDB_ERR_NOT_FOUND then
    some (throwTidesDBException engineResult (getErrorMessage engineResult))
  else none

/-- Embeds `Java_com_tidesdb_TidesDBIterator_nativePrev` (lines 764-775):
`TDB_ERR_NOT_FOUND` is expected at the start of iteration, so only a result
that is neither `TDB_SUCCESS` nor `TDB_ERR_NOT_FOUND` throws. -/
def nativePrev (engineResult : Int) : Option TdbException :=
  if engineResult ≠ TDB_SUCCESS ∧ engineResult ≠ TDB_ERR_NOT_FOUND then
    some (throwTidesDBException engineResult (getErrorMessage engineResult))
  else none

/-- Embeds `Java_com_tidesdb_TidesDBIterator_nativeKey` (lines 777-795):
on success a new `byte[]` is filled from the engine's key buffer (which the
binding does not free — the iterator owns it). -/
def nativeKey (engineResult : Int) (engineKey : List Int) : BytesOutcome :=
  if engineResult ≠ TDB_SUCCESS then
    ⟨some (throwTidesDBException engineResult (getErrorMessage engineResult)), none⟩
  else ⟨none, some engineKey⟩

/-- Embeds `Java_com_tidesdb_TidesDBIterator_nativeValue` (lines 797-815):
on success a new `byte[]` is filled from the engine's value buffer (which the
binding does not free — the iterator owns it). -/
def nativeValue (engineResult : Int) (engineValue : List Int) : BytesOutcome :=
  if engineResult ≠ TDB_SUCCESS then
    ⟨some (throwTidesDBException engineResult (getErrorMessage engineResult)), none⟩
  else ⟨none, some engineValue⟩

/-- Embeds `Java_com_tidesdb_TidesDBIterator_nativeFree` (lines 817-825):
the engine `tidesdb_iter_free` runs only when the handle is non-null; nothing
can throw. -/
def nativeFree (handle : Int) : CloseOutcome :=
  ⟨handle ≠ 0, none⟩

end TidesDBIterator

lemma jlongOfSizeT_eq_of_lt {n : Nat} (h : n < 2 ^ 63) : jlongOfSizeT n = (n : Int) := by
  have h64 : n < 2 ^ 64 := lt_trans h (by norm_num)
  unfold jlongOfSizeT
  rw [Nat.mod_eq_of_lt h64, if_pos h]

lemma range_map_getD {α β : Type} (f : α → β) (d : α) (ls : List α) :
    (List.range ls.length).map (fun i => f (ls.getD i d)) = ls.map f := by
  induction ls with
  | nil => rfl
  | cons a t ih =>
      rw [List.length_cons, List.range_succ_eq_map, List.map_cons, List.map_map]
      have htail : List.map ((fun i => f ((a :: t).getD i d)) ∘ Nat.succ) (List.range t.length)
          = List.map (fun i => f (t.getD i d)) (List.range t.length) :=
        List.map_congr_left fun i _ => rfl
      rw [htail, ih]
      rfl

lemma map_jlongOfSizeT_eq_cast (ls : List Nat) (h : ∀ x ∈ ls, x < 2 ^ 63) :
    ls.map (fun x => jlongOfSizeT x) = ls.map (fun x => Int.ofNat x) :=
  List.map_congr_left fun x hx => jlongOfSizeT_eq_of_lt (h x hx)

/-- C2: a `NOT_FOUND` result from iterator advancement raises no exception
(`next()`/`prev()` return normally, the iterator has simply become invalid),
while any result other than success and `NOT_FOUND` raises the translated
exception carrying that code. -/
theorem c2_iterator_advance_not_found_is_silent (c : Int) (h1 : c ≠ TDB_SUCCESS)
    (h2 : c ≠ TDB_ERR_NOT_FOUND) :
    TidesDBIterator.nativeNext TDB_ERR_NOT_FOUND = none
    ∧ TidesDBIterator.nativePrev TDB_ERR_NOT_FOUND = none
    ∧ TidesDBIterator.nativeNext TDB_SUCCESS = none
    ∧ TidesDBIterator.nativePrev TDB_SUCCESS = none
    ∧ TidesDBIterator.nativeNext c = some ⟨c, getErrorMessage c⟩
    ∧ TidesDBIterator.nativePrev c = some ⟨c, getErrorMessage c⟩ := by
  refine ⟨by decide, by decide, by decide, by decide, ?_, ?_⟩ <;>
    simp [TidesDBIterator.nativeNext, TidesDBIterator.nativePrev, throwTidesDBException, h1, h2]

/-- Witness for C2 at the corruption code. -/
theorem c2_witness :
    TidesDBIterator.nativeNext TDB_ERR_NOT_FOUND = none
    ∧ TidesDBIterator.nativeNext TDB_ERR_CORRUPTION =
        some ⟨TDB_ERR_CORRUPTION, getErrorMessage TDB_ERR_CORRUPTION⟩ :=
  ⟨(c2_iterator_advance_not_found_is_silent TDB_ERR_CORRUPTION (by decide) (by decide)).1,
   (c2_iterator_advance_not_found_is_silent TDB_ERR_CORRUPTION (by decide)
      (by decide)).2.2.2.2.1⟩

/-- C3: on engine success, transactional get returns a byte array equal to
exactly the engine's value bytes and frees the engine buffer; on any engine
failure it throws the exception carrying that code and returns null.  The
borrowed key array is released in abort mode on both paths. -/
theorem c3_txn_get_returns_engine_bytes (key ev : List Int) (c : Int) :
    (c = TDB_SUCCESS →
      Transaction.nativeGet key c ev = ⟨key, none, some ev, .jniAbort, true⟩)
    ∧ (c ≠ TDB_SUCCESS →
      Transaction.nativeGet key c ev =
        ⟨key, some ⟨c, getErrorMessage c⟩, none, .jniAbort, false⟩) := by
  constructor <;> intro h <;> simp [Transaction.nativeGet, throwTidesDBException, h]

/-- Witness for C3: a successful get of bytes `[2, 3]` and a `NOT_FOUND`
get. -/
theorem c3_witness :
    Transaction.nativeGet [1] TDB_SUCCESS [2, 3] = ⟨[1], none, some [2, 3], .jniAbort, true⟩
    ∧ Transaction.nativeGet [1] TDB_ERR_NOT_FOUND [2, 3] =
        ⟨[1], some ⟨TDB_ERR_NOT_FOUND, getErrorMessage TDB_ERR_NOT_FOUND⟩, none,
          .jniAbort, false⟩ :=
  ⟨(c3_txn_get_returns_engine_bytes [1] [2, 3] TDB_SUCCESS).1 rfl,
   (c3_txn_get_returns_engine_bytes [1] [2, 3] TDB_ERR_NOT_FOUND).2 (by decide)⟩

/-- C8: the error-message translation is total on integer codes — every code
outside the eleven engine error codes maps to "unknown error" (first
conjunct), the eleven messages are pairwise distinct (second conjunct), and
each of the eleven codes maps to its own fixed message (rest). -/
theorem c8_error_message_translation_total :
    (∀ c : Int,
      c ∉ ([TDB_ERR_MEMORY, TDB_ERR_INVALID_ARGS, TDB_ERR_NOT_FOUND, TDB_ERR_IO,
        TDB_ERR_CORRUPTION, TDB_ERR_EXISTS, TDB_ERR_CONFLICT, TDB_ERR_TOO_LARGE,
        TDB_ERR_MEMORY_LIMIT, TDB_ERR_INVALID_DB, TDB_ERR_LOCKED] : List Int) →
      getErrorMessage c = "unknown error")
    ∧ (["memory allocation failed", "invalid arguments", "not found", "I/O error",
        "data corruption", "already exists", "transaction conflict",
        "key or value too large", "memory limit exceeded", "invalid database handle",
        "database is locked"] : List String).Nodup
    ∧ getErrorMessage TDB_ERR_MEMORY = "memory allocation failed"
    ∧ getErrorMessage TDB_ERR_INVALID_ARGS = "invalid arguments"
    ∧ getErrorMessage TDB_ERR_NOT_FOUND = "not found"
    ∧ getErrorMessage TDB_ERR_IO = "I/O error"
    ∧ getErrorMessage TDB_ERR_CORRUPTION = "data corruption"
    ∧ getErrorMessage TDB_ERR_EXISTS = "already exists"
    ∧ getErrorMessage TDB_ERR_CONFLICT = "transaction conflict"
    ∧ getErrorMessage TDB_ERR_TOO_LARGE = "key or value too large"
    ∧ getErrorMessage TDB_ERR_MEMORY_LIMIT = "memory limit exceeded"
    ∧ getErrorMessage TDB_ERR_INVALID_DB = "invalid database handle"
    ∧ getErrorMessage TDB_ERR_LOCKED = "database is locked" := by
  refine ⟨?_, by decide, rfl, rfl, rfl, rfl, rfl, rfl, rfl, rfl, rfl, rfl, rfl⟩
  intro c hc
  simp only [List.mem_cons, List.not_mem_nil, or_false, not_or] at hc
  obtain ⟨h1, h2, h3, h4, h5, h6, h7, h8, h9, h10, h11⟩ := hc
  simp [getErrorMessage, h1, h2, h3, h4, h5, h6, h7, h8, h9, h10, h11]

/-- Witness for C8: an unlisted code translates to "unknown error". -/
theorem c8_witness : getErrorMessage 42 = "unknown error" :=
  c8_error_message_translation_total.1 42 (by decide)

/-- C9: database close, transaction free and iterator free with a null (0)
handle are no-ops — the engine teardown function is not invoked and no
exception is raised. -/
theorem c9_null_handle_destructors_are_noops :
    TidesDB.nativeClose 0 = ⟨false, none⟩
    ∧ Transaction.nativeFree 0 = ⟨false, none⟩
    ∧ TidesDBIterator.nativeFree 0 = ⟨false, none⟩ := by
  refine ⟨?_, ?_, ?_⟩ <;> rfl

/-- C10: put, get, delete, seek and seek_for_prev release every borrowed key
and value array with `JNI_ABORT`, so whatever the native buffer held, the
caller's Java arrays keep their original contents, on success and failure
alike. -/
theorem c10_borrowed_arrays_never_written_back (key value buf : List Int) (ttl c : Int)
    (ev : List Int) :
    (Transaction.nativePut key value ttl c).keyRelease = .jniAbort
    ∧ (Transaction.nativePut key value ttl c).valueRelease = .jniAbort
    ∧ (Transaction.nativeGet key c ev).keyRelease = .jniAbort
    ∧ (Transaction.nativeDelete key c).keyRelease = .jniAbort
    ∧ (TidesDBIterator.nativeSeek key c).keyRelease = .jniAbort
    ∧ (TidesDBIterator.nativeSeekForPrev key c).keyRelease = .jniAbort
    ∧ releaseByteArrayElements key buf ((Transaction.nativePut key value ttl c).keyRelease) = key
    ∧ releaseByteArrayElements value buf
        ((Transaction.nativePut key value ttl c).valueRelease) = value
    ∧ releaseByteArrayElements key buf ((Transaction.nativeGet key c ev).keyRelease) = key
    ∧ releaseByteArrayElements key buf ((Transaction.nativeDelete key c).keyRelease) = key
    ∧ releaseByteArrayElements key buf ((TidesDBIterator.nativeSeek key c).keyRelease) = key
    ∧ releaseByteArrayElements key buf
        ((TidesDBIterator.nativeSeekForPrev key c).keyRelease) = key := by
  have hget : (Transaction.nativeGet key c ev).keyRelease = .jniAbort := by
    by_cases h : c = TDB_SUCCESS <;> simp [Transaction.nativeGet, h]
  refine ⟨rfl, rfl, hget, rfl, rfl, rfl, rfl, rfl, ?_, rfl, rfl, rfl⟩
  simp [hget, releaseByteArrayElements]

/-- C1: for every binding operation whose engine call returns a result code,
other than iterator next()/prev(), a non-success code `c` makes the binding
throw a `TidesDBException` carrying exactly `c` and the message
`getErrorMessage c` — no code is swallowed or remapped.  The `true` Boolean
arguments place each call on the path where the string marshalling succeeded
and the engine was actually invoked. -/
theorem c1_nonsuccess_code_raises_exception_with_that_code (c : Int) (h : c ≠ TDB_SUCCESS) :
    Transaction.nativeCommit c = some ⟨c, getErrorMessage c⟩
    ∧ Transaction.nativeRollback c = some ⟨c, getErrorMessage c⟩
    ∧ Transaction.nativeSavepoint c = some ⟨c, getErrorMessage c⟩
    ∧ Transaction.nativeRollbackToSavepoint c = some ⟨c, getErrorMessage c⟩
    ∧ Transaction.nativeReleaseSavepoint c = some ⟨c, getErrorMessage c⟩
    ∧ (∀ key value ttl,
        (Transaction.nativePut key value ttl c).exception = some ⟨c, getErrorMessage c⟩)
    ∧ (∀ key ev, (Transaction.nativeGet key c ev).exception = some ⟨c, getErrorMessage c⟩)
    ∧ (∀ key, (Transaction.nativeDelete key c).exception = some ⟨c, getErrorMessage c⟩)
    ∧ (∀ it, (Transaction.nativeNewIterator c it).exception = some ⟨c, getErrorMessage c⟩)
    ∧ (∀ path nft nct ll bcs mos db,
        (TidesDB.nativeOpen path true nft nct ll bcs mos c db).exception =
          some ⟨c, getErrorMessage c⟩)
    ∧ TidesDB.nativeCreateColumnFamily true c = some ⟨c, getErrorMessage c⟩
    ∧ TidesDB.nativeDropColumnFamily true c = some ⟨c, getErrorMessage c⟩
    ∧ (∀ names,
        (TidesDB.nativeListColumnFamilies c names).exception = some ⟨c, getErrorMessage c⟩)
    ∧ (∀ t, (TidesDB.nativeBeginTransaction c t).exception = some ⟨c, getErrorMessage c⟩)
    ∧ (∀ t, (TidesDB.nativeBeginTransactionWithIsolation c t).exception =
        some ⟨c, getErrorMessage c⟩)
    ∧ (∀ s, (TidesDB.nativeGetCacheStats c s).exception = some ⟨c, getErrorMessage c⟩)
    ∧ (∀ nm ctx, (TidesDB.nativeRegisterComparator nm true ctx c).exception =
        some ⟨c, getErrorMessage c⟩)
    ∧ TidesDB.nativeBackup true c = some ⟨c, getErrorMessage c⟩
    ∧ TidesDB.nativeRenameColumnFamily true true c = some ⟨c, getErrorMessage c⟩
    ∧ (∀ s, (ColumnFamily.nativeGetStats c s).exception = some ⟨c, getErrorMessage c⟩)
    ∧ ColumnFamily.nativeCompact c = some ⟨c, getErrorMessage c⟩
    ∧ ColumnFamily.nativeFlushMemtable c = some ⟨c, getErrorMessage c⟩
    ∧ ColumnFamily.nativeUpdateRuntimeConfig c = some ⟨c, getErrorMessage c⟩
    ∧ TidesDBIterator.nativeSeekToFirst c = some ⟨c, getErrorMessage c⟩
    ∧ TidesDBIterator.nativeSeekToLast c = some ⟨c, getErrorMessage c⟩
    ∧ (∀ key, (TidesDBIterator.nativeSeek key c).exception = some ⟨c, getErrorMessage c⟩)
    ∧ (∀ key, (TidesDBIterator.nativeSeekForPrev key c).exception = some ⟨c, getErrorMessage c⟩)
    ∧ (∀ k, (TidesDBIterator.nativeKey c k).exception = some ⟨c, getErrorMessage c⟩)
    ∧ (∀ v, (TidesDBIterator.nativeValue c v).exception = some ⟨c, getErrorMessage c⟩) := by
  simp [Transaction.nativeCommit, Transaction.nativeRollback, Transaction.nativeSavepoint,
    Transaction.nativeRollbackToSavepoint, Transaction.nativeReleaseSavepoint,
    Transaction.nativePut, Transaction.nativeGet, Transaction.nativeDelete,
    Transaction.nativeNewIterator, TidesDB.nativeOpen, TidesDB.nativeCreateColumnFamily,
    TidesDB.nativeDropColumnFamily, TidesDB.nativeListColumnFamilies,
    TidesDB.nativeBeginTransaction, TidesDB.nativeBeginTransactionWithIsolation,
    TidesDB.nativeGetCacheStats, TidesDB.nativeRegisterComparator, TidesDB.nativeBackup,
    TidesDB.nativeRenameColumnFamily, ColumnFamily.nativeGetStats, ColumnFamily.nativeCompact,
    ColumnFamily.nativeFlushMemtable, ColumnFamily.nativeUpdateRuntimeConfig,
    TidesDBIterator.nativeSeekToFirst, TidesDBIterator.nativeSeekToLast,
    TidesDBIterator.nativeSeek, TidesDBIterator.nativeSeekForPrev, TidesDBIterator.nativeKey,
    TidesDBIterator.nativeValue, checkResult, throwTidesDBException, h]

/-- Witness for C1 at the conflict code: a failed commit surfaces the
conflict code and its message. -/
theorem c1_witness :
    Transaction.nativeCommit TDB_ERR_CONFLICT =
      some ⟨TDB_ERR_CONFLICT, getErrorMessage TDB_ERR_CONFLICT⟩ :=
  (c1_nonsuccess_code_raises_exception_with_that_code TDB_ERR_CONFLICT (by decide)).1

/-- C4 counterexample: at a concrete successful registration call
(name "custom", context "cfg"), the comparator-function argument the binding
passes to `tidesdb_register_comparator` is NULL — the binding supplies no
key-ordering function derived from the caller's name and context, refuting
the claim that `register_comparator` registers a usable ordering function. -/
theorem c4_counterexample :
    ((TidesDB.nativeRegisterComparator "custom" true (some "cfg") TDB_SUCCESS).call.map
      fun a => a.compare.isSome) = some false := rfl

/-- C4 amended: `register_comparator(handle, name, context)` forwards the
name and the context string to the engine's registration entry point with a
NULL comparator function and NULL destructor (so any usable ordering must be
resolved by the engine itself from the name), succeeds silently when the
engine does, and raises the translated exception carrying the engine's code
when it fails. -/
theorem c4_register_comparator_passes_null_function (name : String) (ctx : Option String)
    (c : Int) :
    (TidesDB.nativeRegisterComparator name true ctx c).call = some ⟨name, none, ctx, none⟩
    ∧ (c = TDB_SUCCESS → (TidesDB.nativeRegisterComparator name true ctx c).exception = none)
    ∧ (c ≠ TDB_SUCCESS → (TidesDB.nativeRegisterComparator name true ctx c).exception =
        some ⟨c, getErrorMessage c⟩) := by
  refine ⟨by simp [TidesDB.nativeRegisterComparator], ?_, ?_⟩ <;> intro h <;>
    simp [TidesDB.nativeRegisterComparator, checkResult, throwTidesDBException, h]

/-- Witness for C4's amended theorem at a concrete successful call. -/
theorem c4_witness :
    (TidesDB.nativeRegisterComparator "custom" true (some "cfg") TDB_SUCCESS).call =
      some ⟨"custom", none, some "cfg", none⟩
    ∧ (TidesDB.nativeRegisterComparator "custom" true (some "cfg") TDB_SUCCESS).exception =
      none :=
  ⟨(c4_register_comparator_passes_null_function "custom" (some "cfg") TDB_SUCCESS).1,
   (c4_register_comparator_passes_null_function "custom" (some "cfg") TDB_SUCCESS).2.1 rfl⟩

/-- C5 counterexample: at a concrete call with `blockCacheSize = -1`, the
`(size_t)` cast in the config initializer turns the parameter into
`2^64 - 1`, so the binding does not forward the caller's value unchanged. -/
theorem c5_counterexample :
    ((TidesDB.nativeOpen "p" true 1 1 0 (-1) 5 TDB_SUCCESS 7).config.map
        fun cfg => (cfg.block_cache_size : Int)) = some (2 ^ 64 - 1)
    ∧ ((2 : Int) ^ 64 - 1) ≠ -1 := by
  refine ⟨?_, by decide⟩
  rfl

/-- C5 amended: open forwards the path, the two thread counts and the log
level unchanged, and the two size parameters through the C `(size_t)` cast —
hence unchanged whenever they are non-negative (negative `jlong` values wrap
modulo `2^64`); it returns the engine's handle (non-zero whenever the engine
produced a non-null database) when the engine succeeds, and returns 0 after
raising the exception carrying the engine's code when it fails. -/
theorem c5_open_forwards_config_and_translates_failure (path : String)
    (nft nct ll bcs mos c : Int) (db : Nat) (hb0 : 0 ≤ bcs) (hb1 : bcs < 2 ^ 64)
    (hm0 : 0 ≤ mos) (hm1 : mos < 2 ^ 64) :
    (TidesDB.nativeOpen path true nft nct ll bcs mos c db).config =
      some ⟨path, nft, nct, ll, bcs.toNat, mos.toNat⟩
    ∧ (c = TDB_SUCCESS → TidesDB.nativeOpen path true nft nct ll bcs mos c db =
        ⟨none, db, some ⟨path, nft, nct, ll, bcs.toNat, mos.toNat⟩⟩)
    ∧ (c ≠ TDB_SUCCESS → TidesDB.nativeOpen path true nft nct ll bcs mos c db =
        ⟨some ⟨c, getErrorMessage c⟩, 0, some ⟨path, nft, nct, ll, bcs.toNat, mos.toNat⟩⟩)
    ∧ (c = TDB_SUCCESS → db ≠ 0 →
        (TidesDB.nativeOpen path true nft nct ll bcs mos c db).ret ≠ 0) := by
  have hbcs : sizeTOfJlong bcs = bcs.toNat := by
    unfold sizeTOfJlong
    rw [Int.emod_eq_of_lt hb0 hb1]
  have hmos : sizeTOfJlong mos = mos.toNat := by
    unfold sizeTOfJlong
    rw [Int.emod_eq_of_lt hm0 hm1]
  refine ⟨?_, ?_, ?_, ?_⟩
  · simp [TidesDB.nativeOpen, hbcs, hmos]
    by_cases h : c = TDB_SUCCESS <;> simp [h]
  · intro h
    simp [TidesDB.nativeOpen, hbcs, hmos, h]
  · intro h
    simp [TidesDB.nativeOpen, hbcs, hmos, throwTidesDBException, h]
  · intro h hdb
    simp [TidesDB.nativeOpen, h, hdb]

/-- Witness for C5's amended theorem at a concrete successful open. -/
theorem c5_witness :
    TidesDB.nativeOpen "data" true 2 3 1 1024 100 TDB_SUCCESS 7 =
      ⟨none, 7, some ⟨"data", 2, 3, 1, 1024, 100⟩⟩ := by
  have := (c5_open_forwards_config_and_translates_failure "data" 2 3 1 1024 100 TDB_SUCCESS 7
    (by decide) (by decide) (by decide) (by decide)).2.1 rfl
  simpa using this

/-- C6: on a successful `get_cache_stats` call the binding returns a
`CacheStats` object whose seven fields are exactly the engine struct's
fields — the flag as a boolean, the counters verbatim (whenever they fit a
`jlong`, which the C cast requires for value preservation), and the
`hit_rate` double passed through unmodified. -/
theorem c6_cache_stats_faithful (s : Tidesdb_cache_stats)
    (h1 : s.total_entries < 2 ^ 63) (h2 : s.total_bytes < 2 ^ 63) (h3 : s.hits < 2 ^ 63)
    (h4 : s.misses < 2 ^ 63) (h5 : s.num_partitions < 2 ^ 63) :
    TidesDB.nativeGetCacheStats TDB_SUCCESS s =
      ⟨none, some ⟨s.enabled != 0, Int.ofNat s.total_entries, Int.ofNat s.total_bytes,
        Int.ofNat s.hits, Int.ofNat s.misses, s.hit_rate, Int.ofNat s.num_partitions⟩⟩ := by
  simp [TidesDB.nativeGetCacheStats]
  exact ⟨jlongOfSizeT_eq_of_lt h1, jlongOfSizeT_eq_of_lt h2, jlongOfSizeT_eq_of_lt h3,
    jlongOfSizeT_eq_of_lt h4, jlongOfSizeT_eq_of_lt h5⟩

/-- Witness for C6 at a concrete engine stats struct. -/
theorem c6_witness :
    TidesDB.nativeGetCacheStats TDB_SUCCESS ⟨1, 10, 2048, 7, 3, ⟨4607182418800017408⟩, 16⟩ =
      ⟨none, some ⟨true, 10, 2048, 7, 3, ⟨4607182418800017408⟩, 16⟩⟩ := by
  have := c6_cache_stats_faithful ⟨1, 10, 2048, 7, 3, ⟨4607182418800017408⟩, 16⟩
    (by decide) (by decide) (by decide) (by decide) (by decide)
  simpa using this

/-- C7: on a successful `get_stats` call, when the engine provides its level
arrays (of `num_levels` entries, each size fitting a `jlong`), the binding
returns a `Stats` object whose `numLevels` and `memtableSize` equal the
engine's values and whose two arrays have length `num_levels` with i-th
elements equal to the engine's `level_sizes[i]` and `level_num_sstables[i]`. -/
theorem c7_get_stats_faithful (s : Tidesdb_stats) (ls : List Nat) (ns : List Int)
    (hls : s.level_sizes = some ls) (hns : s.level_num_sstables = some ns)
    (hlen : ls.length = s.num_levels.toNat) (hnlen : ns.length = s.num_levels.toNat)
    (hb : ∀ x ∈ ls, x < 2 ^ 63) (hm : s.memtable_size < 2 ^ 63) :
    ColumnFamily.nativeGetStats TDB_SUCCESS s =
      ⟨none, some ⟨s.num_levels, Int.ofNat s.memtable_size,
        ls.map (fun x => Int.ofNat x), ns, none⟩⟩
    ∧ (ls.map (fun x => Int.ofNat x)).length = s.num_levels.toNat
    ∧ ns.length = s.num_levels.toNat := by
  have harr : (List.range s.num_levels.toNat).map (fun i => jlongOfSizeT (ls.getD i 0))
      = ls.map (fun x => Int.ofNat x) := by
    rw [← hlen, range_map_getD (fun x => jlongOfSizeT x) 0 ls]
    exact map_jlongOfSizeT_eq_cast ls hb
  have hnarr : (List.range s.num_levels.toNat).map (fun i => ns.getD i 0) = ns := by
    rw [← hnlen]
    simpa using range_map_getD (fun x => x) 0 ns
  refine ⟨?_, by simpa using hlen, hnlen⟩
  simp [ColumnFamily.nativeGetStats, hls, hns, jlongOfSizeT_eq_of_lt hm]
  exact ⟨by simpa using harr, by simpa using hnarr⟩

/-- Witness for C7 at a concrete engine stats struct with two levels. -/
theorem c7_witness :
    ColumnFamily.nativeGetStats TDB_SUCCESS ⟨2, 10, some [5, 7], some [1, 2]⟩ =
      ⟨none, some ⟨2, 10, [5, 7], [1, 2], none⟩⟩ := by
  have := (c7_get_stats_faithful ⟨2, 10, some [5, 7], some [1, 2]⟩ [5, 7] [1, 2] rfl rfl
    (by decide) (by decide) (by decide) (by decide)).1
  simpa using this
